import Mathlib

set_option maxRecDepth 20000

deriving instance DecidableEq for Except

attribute [local semireducible] Rat.mul Rat.add Rat.sub Rat.inv

/-!
Shallow embedding of the gasless-relay tool (src/tools/gasless_relay.py,
src/config.py) of the NEOSPoonOS repository.

Modelling conventions:
* Python ints are `Int` (unbounded), `decimal.Decimal` values are `Rat`
  (the 28-significant-digit Decimal context is abstracted to exact
  rationals; all claims settled here depend only on error-vs-return
  branching and on signs, which the context rounding does not affect).
* Exceptions are `Except PyError`.
* The neo3 `ScriptBuilder` is modelled at the instruction level: each
  `emit_push` / `emit` / `emit_syscall` call appends one typed `Instr`.
  Rendering instructions to bytes is an injective per-instruction
  encoding performed by the external neo3 library (the SYSCALL encoding
  involves a sha256-derived interop hash), so identity and distinctness
  of instruction lists coincide with identity and distinctness of the
  rendered byte strings.
* External collaborators (the signature-recovery chain of
  `neo3.crypto.signing` / `contract.Contract` / `types.UInt160`, the RPC
  balance endpoint, the Flamingo price and swap endpoints) are supplied
  as a `RelayEnv` record of oracle values, one per network/crypto call
  the source makes.
* Network and assembly side effects are recorded in an explicit
  `RelayEvent` trace so that ordering claims ("before any network call",
  "no transaction is assembled") are statable.
-/

/-- One typed instruction appended by the neo3 `ScriptBuilder`.
`pushBytes s` models `emit_push` of the UTF-8 bytes of the string `s`;
`pushU160 n` models `emit_push` of a `UInt160` whose 160-bit value is `n`;
`pushInt n` models `emit_push` of a Python int; `pack`, `dup` and
`assertOp` model `emit(OpCode.PACK)`, `emit(OpCode.DUP)` and
`emit(OpCode.ASSERT)`; `syscall name` models `emit_syscall name`. -/
inductive Instr where
  | pushBytes (s : String)
  | pushU160 (n : Nat)
  | pushInt (n : Int)
  | pack
  | dup
  | assertOp
  | syscall (name : String)
deriving DecidableEq, Repr

/-- Mirrors `neo3.network.payloads.Witness`: a pair of scripts. -/
structure Witness where
  invocation_script : List Instr
  verification_script : List Instr
deriving DecidableEq, Repr

/-- Mirrors the `payloads.Transaction(...)` constructor call at
src/tools/gasless_relay.py lines 125-134 (the fields the source sets). -/
structure Transaction where
  version : Nat
  nonce : Nat
  system_fee : Nat
  network_fee : Nat
  valid_until_block : Nat
  attributes : List Unit
  script : List Instr
  witnesses : List Witness
deriving DecidableEq, Repr

/-- Python exception classes raised by the source or by the libraries it
calls, identified by class only (messages elided). `nameError` is the
`NameError` raised when a referenced name is bound nowhere in scope;
`httpError` is `requests.HTTPError` from `raise_for_status`;
`zeroDivision` is `decimal.DivisionByZero`. -/
inductive PyError where
  | nameError
  | valueError
  | runtimeError
  | httpError
  | zeroDivision
deriving DecidableEq, Repr

/-- Observable side effects of one `execute_gasless_transfer` /
`_ensure_agent_has_gas` call, in order of occurrence.
`balanceQuery` is the RPC `invokefunction balanceOf` network call
attempted by `_get_gas_balance`; `swapRequest` is the POST to the
Flamingo swap endpoint in `_swap_flm_to_gas`; `assembled tx` is the
construction of `payloads.Transaction`; `submitted raw` is the
`sendrawtransaction` RPC call of `_send_raw_transaction` (never emitted:
execution always fails earlier, see `build_custom_witness`). -/
inductive RelayEvent where
  | balanceQuery
  | swapRequest
  | assembled (tx : Transaction)
  | submitted (raw : String)
deriving DecidableEq, Repr

/-- Mirrors `NeoNetworkConfig` of src/config.py, with its defaults.
`min_agent_gas_balance` is a `Decimal`, modelled as `Rat`. -/
structure NeoNetworkConfig where
  rpc_url : String := "https://rpc.testnet.neo.org"
  flamingo_api : String := "https://api.flamingo.finance"
  relay_contract_hash : String := "0x1a2b3c...def"
  agent_wallet_wif : String := "L4nZC5YBZ4PzU1JHb4YSDH25UyL8n8826hN297w2L7J8K9L9M9N9"
  min_agent_gas_balance : Rat := 1/1000
  slippage_bps : Int := 50
deriving DecidableEq, Repr

/-- The mutable state of a `GaslessRelayTool` object. `__init__` stores
`self.config`, `self.agent_acct` and `self.rpc_client`; the latter two
are opaque handles to external collaborators (modelled in `RelayEnv`).
No attribute holding executed intent ids (or any other per-call record)
is created, and no method of the class ever rebinds an attribute. -/
structure GaslessRelayTool where
  config : NeoNetworkConfig
deriving DecidableEq, Repr

/-- Oracle values for the external collaborators touched by one call.
`recoverAddr payload sig` models the composed chain
`signing.recover_public_key_from_signature(payload, bytes.fromhex(sig))`
→ `contract.Contract.create_signature_redeem_script(...)` →
`types.UInt160.deserialize_from_bytes(...).to_address()` at
src/tools/gasless_relay.py lines 100-104: `none` when any step raises
(bad hex, recovery failure), `some a` when the chain yields address `a`.
`gasBalanceResp` is the raw little-endian integer decoded from the RPC
`balanceOf` response, `none` when the RPC call raises (the source then
falls back to a zero balance). `swapOk` is whether the Flamingo swap
POST passes `raise_for_status`. `priceResult` models
`_get_price_from_flamingo`: `none` when the request/JSON handling raises
(the source returns `None`), `some p` for a fetched float price `p`
(`p = 0` when the JSON lacks a "price" key, via `data.get("price", 0)`). -/
structure RelayEnv where
  recoverAddr : String → String → Option String
  gasBalanceResp : Option Nat
  swapOk : Bool
  priceResult : Option Rat

/-- Result dictionary of a successful `execute_gasless_transfer`
(lines 144-151). Unreachable in the source, see `build_custom_witness`. -/
structure ExecResult where
  txid : String
  net_amount : Int
  burn_amount : Int
  status : String
  intent_id : String
deriving DecidableEq, Repr

/-- Result dictionary of a successful `estimate_gas_cost` (lines 56-62). -/
structure FeeQuote where
  fee_in_asset : Int
  asset_decimals : Nat
  burn_amount : Int
  intent_id : Option String
  source : String
deriving DecidableEq, Repr

/-- Outcome of one `execute_gasless_transfer` call: the tool state after
the call, the trace of observable effects, and the returned value or the
propagated exception. -/
structure ExecOutcome where
  state : GaslessRelayTool
  events : List RelayEvent
  result : Except PyError ExecResult
deriving DecidableEq, Repr

/- ───────────────────── JSON canonicalization model ─────────────────────
Models CPython `json.dumps(obj, sort_keys=True)` with default arguments
(`ensure_ascii=True`, default separators `(", ", ": ")`) for objects whose
values are strings and ints, as used at line 104 of the source. -/

/-- Lowercase hexadecimal digit, as CPython emits in `\uXXXX` escapes. -/
def hexDigitChar (n : Nat) : Char :=
  if n < 10 then Char.ofNat (48 + n) else Char.ofNat (87 + n)

/-- Four lowercase hex digits of a value below 2^16. -/
def u16Hex (n : Nat) : String :=
  String.mk [hexDigitChar (n / 4096 % 16), hexDigitChar (n / 256 % 16),
             hexDigitChar (n / 16 % 16), hexDigitChar (n % 16)]

/-- CPython `json.dumps` per-character string escaping with
`ensure_ascii=True`: the two-character escapes for quote, backslash and
the common control characters, `\uXXXX` for other control characters and
all non-ASCII characters, surrogate pairs above U+FFFF. -/
def jsonEscapeChar (c : Char) : String :=
  if c = Char.ofNat 34 then "\\\""
  else if c = Char.ofNat 92 then "\\\\"
  else if c = Char.ofNat 10 then "\\n"
  else if c = Char.ofNat 13 then "\\r"
  else if c = Char.ofNat 9 then "\\t"
  else if c = Char.ofNat 8 then "\\b"
  else if c = Char.ofNat 12 then "\\f"
  else if c.toNat < 32 ∨ 127 ≤ c.toNat then
    if c.toNat < 65536 then "\\u" ++ u16Hex c.toNat
    else
      "\\u" ++ u16Hex (55296 + (c.toNat - 65536) / 1024) ++
      "\\u" ++ u16Hex (56320 + (c.toNat - 65536) % 1024)
  else String.singleton c

/-- JSON string literal for `s`, double-quoted and escaped. -/
def jsonStringLit (s : String) : String :=
  "\"" ++ String.join (s.data.map jsonEscapeChar) ++ "\""

/-- JSON values occurring in the intent payload: strings and ints. -/
inductive JValue where
  | str (s : String)
  | int (n : Int)
deriving DecidableEq, Repr

/-- One `"key": value` member with CPython's default item separator
`": "` (a colon followed by a space). -/
def jsonMember : String × JValue → String
  | (k, JValue.str s) => jsonStringLit k ++ ": " ++ jsonStringLit s
  | (k, JValue.int n) => jsonStringLit k ++ ": " ++ toString n

/-- Codepoint-lexicographic string comparison, the comparison Python
uses on `str` keys when sorting. -/
def pyCharsLe : List Char → List Char → Bool
  | [], _ => true
  | _ :: _, [] => false
  | a :: as, b :: bs =>
    if a.toNat < b.toNat then true
    else if b.toNat < a.toNat then false
    else pyCharsLe as bs

/-- Stable insertion of `x` into a list sorted by `le`: `x` goes before
the first element it compares `le` to (so earlier elements stay before
equal later ones, as in Python's stable sort). -/
def insertSortedBy (le : α → α → Bool) (x : α) : List α → List α
  | [] => [x]
  | y :: ys => if le x y then x :: y :: ys else y :: insertSortedBy le x ys

/-- Stable sort by `le` (insertion sort; agrees with Python `sorted`). -/
def sortBy (le : α → α → Bool) : List α → List α
  | [] => []
  | x :: xs => insertSortedBy le x (sortBy le xs)

/-- `json.dumps(dict, sort_keys=True)` with default separators: members
sorted by key (codepoint-lexicographic, as Python string comparison),
joined with `", "` (a comma followed by a space), wrapped in braces. -/
def jsonDumpsSorted (kvs : List (String × JValue)) : String :=
  "\x7b" ++
    String.intercalate ", "
      ((sortBy (fun a b => pyCharsLe a.1.data b.1.data) kvs).map jsonMember) ++
  "\x7d"

/-- The `intent_data` dict plus `json.dumps(intent_data, sort_keys=True)`
at src/tools/gasless_relay.py lines 96-104: the payload whose signature
is verified, listed in the dict's insertion order. -/
def canonicalIntentPayload (from_addr to_addr : String)
    (gross_amount fee_in_asset : Int) (intent_id : String) : String :=
  jsonDumpsSorted
    [("from", JValue.str from_addr),
     ("to", JValue.str to_addr),
     ("gross_amount", JValue.int gross_amount),
     ("fee_in_asset", JValue.int fee_in_asset),
     ("intent_id", JValue.str intent_id)]

/-- Following the spec's words (§6, wire contract): the same five keys,
sorted lexicographically, serialized with no extraneous whitespace in
the encoded bytes (compact separators). Stated for comparison with
`canonicalIntentPayload`, which is translated from the source. -/
def specCanonicalCompactPayload (from_addr to_addr : String)
    (gross_amount fee_in_asset : Int) (intent_id : String) : String :=
  "\x7b\"fee_in_asset\":" ++ toString fee_in_asset ++
  ",\"from\":" ++ jsonStringLit from_addr ++
  ",\"gross_amount\":" ++ toString gross_amount ++
  ",\"intent_id\":" ++ jsonStringLit intent_id ++
  ",\"to\":" ++ jsonStringLit to_addr ++ "\x7d"

example : canonicalIntentPayload "a" "b" 10 2 "c" =
    "\x7b\"fee_in_asset\": 2, \"from\": \"a\", \"gross_amount\": 10, \"intent_id\": \"c\", \"to\": \"b\"\x7d" := by
  decide

/- ───────────────────── UInt160 hex-string parsing ─────────────────────
Models `neo3.core.types.UInt160.from_string`: an optional "0x" prefix is
stripped; the remainder must be 40 hex characters (`bytes.fromhex` is
case-insensitive); otherwise `ValueError` is raised. The parsed 160-bit
value is represented big-endian as a `Nat` (the library stores the bytes
reversed internally; byte order is a bijection, so equality and
distinctness of parsed values are unaffected). -/

/-- Value of one hex digit, both cases accepted (as `bytes.fromhex`). -/
def hexVal (c : Char) : Option Nat :=
  if 48 ≤ c.toNat ∧ c.toNat ≤ 57 then some (c.toNat - 48)
  else if 97 ≤ c.toNat ∧ c.toNat ≤ 102 then some (c.toNat - 87)
  else if 65 ≤ c.toNat ∧ c.toNat ≤ 70 then some (c.toNat - 55)
  else none

/-- Big-endian accumulation of a hex digit sequence. -/
def parseHexNat : List Char → Nat → Option Nat
  | [], acc => some acc
  | c :: cs, acc =>
    match hexVal c with
    | some v => parseHexNat cs (16 * acc + v)
    | none => none

/-- `types.UInt160.from_string`: `none` models the `ValueError` raised on
a malformed hash string. The optional leading "0x" is stripped and the
remaining 40 characters are parsed as hex. -/
def parseUInt160 (s : String) : Option Nat :=
  let t : List Char :=
    match s.data with
    | '0' :: 'x' :: rest => rest
    | cs => cs
  if t.length = 40 then parseHexNat t 0 else none

/- ───────────────────── script builders ───────────────────── -/

/-- Translation of `_build_relay_script` (src/tools/gasless_relay.py
lines 208-245): parse the three address arguments and the configured
relay contract hash with `UInt160.from_string` (`none` models the
`ValueError` any failed parse raises), then emit, in source order: the
six method arguments `intent_id, burn_amount, net_amount, asset_hash,
to_addr, from_addr`, the call-flags value `0x00`, the argument count `7`
(the literal the source pushes), `PACK`, the method name
`"transferWithFeeFromAmount"`, the relay contract hash, and the
`System.Contract.Call` syscall. -/
def build_relay_script (from_addr to_addr asset_hash : String)
    (net_amount burn_amount : Int) (intent_id : String)
    (relay_contract_hash : String) : Option (List Instr) :=
  match parseUInt160 from_addr, parseUInt160 to_addr,
        parseUInt160 asset_hash, parseUInt160 relay_contract_hash with
  | some f, some t, some a, some r =>
    some
      [Instr.pushBytes intent_id,
       Instr.pushInt burn_amount,
       Instr.pushInt net_amount,
       Instr.pushU160 a,
       Instr.pushU160 t,
       Instr.pushU160 f,
       Instr.pushInt 0,
       Instr.pushInt 7,
       Instr.pack,
       Instr.pushBytes "transferWithFeeFromAmount",
       Instr.pushU160 r,
       Instr.syscall "System.Contract.Call"]
  | _, _, _, _ => none

/-- Translation of `_build_custom_witness` (src/tools/gasless_relay.py
lines 247-294). The function's parameters are `(user_addr,
contract_hash_str)` only. Its body's first verification-script statement
is `verification_script_builder.emit_push(intent_id.encode('utf-8'))`,
but `intent_id` is not a parameter, not a local, and bound neither at
module level nor in builtins, so every call raises `NameError` at that
statement — before any `Witness` is constructed. (The two
`ScriptBuilder`s created earlier in the body hold no pushes at that
point; the `payloads.Witness(...)` constructor at the end is never
reached.) -/
def build_custom_witness (_user_addr _contract_hash_str : String) :
    Except PyError Witness :=
  Except.error PyError.nameError

/- ───────────────────── agent gas guard ───────────────────── -/

/-- `_get_gas_balance` (lines 195-206): the RPC `balanceOf` result
scaled by `10^8`, with the `except` fallback `Decimal(0)` when the RPC
call raises. -/
def get_gas_balance (env : RelayEnv) : Rat :=
  match env.gasBalanceResp with
  | none => 0
  | some n => (n : Rat) / 10 ^ 8

/-- `_ensure_agent_has_gas` (lines 171-175) together with
`_swap_flm_to_gas` (lines 177-190): query the balance (always one
`balanceQuery` network call, attempted even when it fails); if the
balance is strictly below `config.min_agent_gas_balance`, POST a swap
request (`swapRequest`), whose `raise_for_status` raises `HTTPError`
when the swap endpoint fails. Returns the event list and either success
or the propagated exception. -/
def ensure_agent_has_gas (env : RelayEnv) (cfg : NeoNetworkConfig) :
    List RelayEvent × Except PyError Unit :=
  if get_gas_balance env < cfg.min_agent_gas_balance then
    ([RelayEvent.balanceQuery, RelayEvent.swapRequest],
     if env.swapOk then Except.ok () else Except.error PyError.httpError)
  else ([RelayEvent.balanceQuery], Except.ok ())

/- ───────────────────── fee quoter ───────────────────── -/

/-- `_get_asset_decimals` (lines 167-169): returns 8 for every symbol. -/
def get_asset_decimals (_symbol : String) : Nat := 8

/-- Python `int(...)` applied to a `Decimal`: truncation toward zero.
On a normalized rational (positive denominator) this is the T-division
of the numerator by the denominator. -/
def pyIntTrunc (q : Rat) : Int :=
  q.num / (q.den : Int)

/-- Translation of `estimate_gas_cost` (lines 29-62). The price comes
from `_get_price_from_flamingo` (modelled by `env.priceResult`, see
`RelayEnv`); `None` triggers the explicit
`RuntimeError("Failed to fetch price from Flamingo")`. Then
`fee_in_asset = Decimal(str(fee_gas)) / Decimal(str(price))` — which
raises `decimal.DivisionByZero` when the fetched price is `0` — a
slippage buffer `fee_in_asset * slippage_bps / 10000` is added, and the
result is scaled by `10^decimals` and truncated with `int(...)`. No sign
check is performed anywhere: a negative price flows through to a
returned quote. -/
def estimate_gas_cost (env : RelayEnv) (cfg : NeoNetworkConfig)
    (asset_symbol : String) (fee_gas : Rat) (intent_id : Option String) :
    Except PyError FeeQuote :=
  match env.priceResult with
  | none => Except.error PyError.runtimeError
  | some price =>
    if price = 0 then Except.error PyError.zeroDivision
    else
      let fee_in_asset := fee_gas / price
      let fee_in_asset :=
        fee_in_asset + fee_in_asset * (cfg.slippage_bps : Rat) / 10000
      let decimals := get_asset_decimals asset_symbol
      let fee_raw := pyIntTrunc (fee_in_asset * 10 ^ decimals)
      Except.ok
        { fee_in_asset := fee_raw
          asset_decimals := decimals
          burn_amount := fee_raw
          intent_id := intent_id
          source := "flamingo_oracle" }

/- ───────────────────── orchestrator ───────────────────── -/

/-- Arguments of `execute_gasless_transfer` (lines 67-75). -/
structure TransferArgs where
  from_addr : String
  to_addr : String
  asset_hash : String
  gross_amount : Int
  fee_in_asset : Int
  user_signature : String
  intent_id : String
deriving DecidableEq, Repr

/-- Event trace and result of one `execute_gasless_transfer` body
(lines 67-151), in source order:
1. `net_amount = gross_amount - fee_in_asset` (no sign check anywhere);
2. build `intent_data` and `json.dumps(intent_data, sort_keys=True)`,
   recover the signer (the external chain, `env.recoverAddr`; a raise is
   `ValueError`) and raise `ValueError("Invalid user signature for
   intent")` when the derived address differs from `from_addr`;
3. `_ensure_agent_has_gas` (network balance query, possible swap);
4. `_build_relay_script` (a failed `UInt160.from_string` parse raises
   `ValueError`);
5. construct `payloads.Transaction(version=0, nonce=12345,
   system_fee=120000, network_fee=100000, valid_until_block=999999,
   attributes=[], script=script, witnesses=[])` — the `assembled` event;
6. `await self._build_custom_witness(from_addr,
   self.config.relay_contract_hash)` — which always raises `NameError`
   (see `build_custom_witness`), so the signing step (line 140) and
   `_send_raw_transaction` (line 143) are unreachable and the success
   dictionary (lines 144-151) is never returned. -/
def exec_run (env : RelayEnv) (cfg : NeoNetworkConfig) (a : TransferArgs) :
    List RelayEvent × Except PyError ExecResult :=
  let payload := canonicalIntentPayload a.from_addr a.to_addr
    a.gross_amount a.fee_in_asset a.intent_id
  match env.recoverAddr payload a.user_signature with
  | none => ([], Except.error PyError.valueError)
  | some addr =>
    if addr = a.from_addr then
      let eg := ensure_agent_has_gas env cfg
      match eg.2 with
      | Except.error e => (eg.1, Except.error e)
      | Except.ok _ =>
        match build_relay_script a.from_addr a.to_addr a.asset_hash
          (a.gross_amount - a.fee_in_asset) a.fee_in_asset a.intent_id
          cfg.relay_contract_hash with
        | none => (eg.1, Except.error PyError.valueError)
        | some script =>
          let tx : Transaction :=
            { version := 0
              nonce := 12345
              system_fee := 120000
              network_fee := 100000
              valid_until_block := 999999
              attributes := []
              script := script
              witnesses := [] }
          (eg.1 ++ [RelayEvent.assembled tx], Except.error PyError.nameError)
    else ([], Except.error PyError.valueError)

/-- `execute_gasless_transfer` as a method of the tool object: the body
reads `self.config` and rebinds no attribute of `self` (the class holds
no deduplication set or other per-call record), so the tool state after
the call is the state before it. -/
def execute_gasless_transfer (st : GaslessRelayTool) (env : RelayEnv)
    (a : TransferArgs) : ExecOutcome :=
  let r := exec_run env st.config a
  { state := st, events := r.1, result := r.2 }

/-- `Except.ok`-ness as a boolean, for stating "never returns". -/
def exceptIsOk : Except ε α → Bool
  | Except.ok _ => true
  | Except.error _ => false

/-- Whether a trace contains a transaction-assembly event. -/
def hasAssembled (es : List RelayEvent) : Bool :=
  es.any fun e =>
    match e with
    | RelayEvent.assembled _ => true
    | _ => false

/- ───────────────────── claims ───────────────────── -/

/-- C3, amended: the payload whose signature is verified is the JSON
serialization of exactly the keys from, to, gross_amount, fee_in_asset,
intent_id with keys sorted lexicographically — the members come out in
the order fee_in_asset, from, gross_amount, intent_id, to — but joined
with CPython's default separators (a comma followed by a space between
members, and jsonMember puts a colon followed by a space after each
key), so the encoded bytes do contain whitespace. -/
theorem c3_sorted_keys_default_separators
    (from_addr to_addr : String) (gross_amount fee_in_asset : Int)
    (intent_id : String) :
    canonicalIntentPayload from_addr to_addr gross_amount fee_in_asset
        intent_id =
      "\x7b" ++
        String.intercalate ", "
          (List.map jsonMember
            [("fee_in_asset", JValue.int fee_in_asset),
             ("from", JValue.str from_addr),
             ("gross_amount", JValue.int gross_amount),
             ("intent_id", JValue.str intent_id),
             ("to", JValue.str to_addr)]) ++
      "\x7d" := rfl

/-- Counterexample for C3: at a concrete intent, the payload the source
verifies differs from the whitespace-free serialization the spec
prescribes, and it contains a space character (codepoint 32). -/
theorem c3_counterexample :
    decide (canonicalIntentPayload "a" "b" 10 2 "c" =
        specCanonicalCompactPayload "a" "b" 10 2 "c") = false ∧
    Char.ofNat 32 ∈ (canonicalIntentPayload "a" "b" 10 2 "c").data := by
  decide

/-- C4: the witness builder does not return the described Witness for
any input: `_build_custom_witness` takes only (user_addr,
contract_hash_str) — it has no intentId parameter — and its body
references the unbound name intent_id, so every call raises NameError
before any Witness is constructed, contradicting the function's own
inline pseudocode and the repository's test_build_custom_witness. -/
theorem c4_witness_builder_raises (user_addr contract_hash_str : String) :
    build_custom_witness user_addr contract_hash_str =
      Except.error PyError.nameError := rfl

/-- C10: no call to `_build_custom_witness` ever returns a Witness
(empty-invocation or otherwise): every call raises NameError at the
first verification-script statement, before the Witness constructor is
reached. Evaluated over all inputs, including the repository's own
test_build_custom_witness input pair. -/
theorem c10_no_witness_returned (user_addr contract_hash_str : String) :
    exceptIsOk (build_custom_witness user_addr contract_hash_str) =
      false := rfl

/-- C7, amended: `estimate_gas_cost` raises (returns no quote) when the
price collaborator errors — `_get_price_from_flamingo` returns None and
the source raises RuntimeError — and when the fetched price is exactly
zero, where the Decimal division raises DivisionByZero. (A strictly
negative price is not rejected; see the counterexample.) -/
theorem c7_no_quote_on_none_or_zero_price (env : RelayEnv)
    (cfg : NeoNetworkConfig) (asset_symbol : String) (fee_gas : Rat)
    (intent_id : Option String)
    (h : env.priceResult = none ∨ env.priceResult = some 0) :
    exceptIsOk
      (estimate_gas_cost env cfg asset_symbol fee_gas intent_id) =
      false := by
  rcases h with h | h <;>
    simp [estimate_gas_cost, h, exceptIsOk]

/-- Witness for C7: with a price response of None the call returns no
quote. -/
theorem c7_witness :
    ((none : Option Rat) = none ∨ (none : Option Rat) = some 0) ∧
    exceptIsOk
      (estimate_gas_cost ⟨fun _ _ => none, none, true, none⟩
        ⟨"", "", "", "", 1/1000, 50⟩ "NEO" (3/25000) none) = false :=
  ⟨Or.inl rfl,
   c7_no_quote_on_none_or_zero_price
     ⟨fun _ _ => none, none, true, none⟩
     ⟨"", "", "", "", 1/1000, 50⟩ "NEO" (3/25000) none (Or.inl rfl)⟩

/-- Counterexample for C7: a strictly negative oracle price (-1) is not
rejected: `estimate_gas_cost` returns a FeeQuote, with a negative
fee_in_asset of -12060 raw units (fee_gas 0.00012, slippage 50 bps). -/
theorem c7_counterexample :
    estimate_gas_cost ⟨fun _ _ => none, none, true, some (-1)⟩
        ⟨"", "", "", "", 1/1000, 50⟩ "NEO" (3/25000) (some "q7") =
      Except.ok ⟨-12060, 8, -12060, some "q7", "flamingo_oracle"⟩ ∧
    (-1 : Rat) < 0 := by
  decide

/-- C8: `_ensure_agent_has_gas` triggers the swap call if and only if
the queried agent GAS balance (the raw RPC integer scaled by 10^8) is
strictly below config.min_agent_gas_balance; in particular, when the
balance equals the minimum no swap occurs. -/
theorem c8_swap_iff_below_min (env : RelayEnv) (cfg : NeoNetworkConfig)
    (n : Nat) (h : env.gasBalanceResp = some n) :
    RelayEvent.swapRequest ∈ (ensure_agent_has_gas env cfg).1 ↔
      (n : Rat) / 10 ^ 8 < cfg.min_agent_gas_balance := by
  by_cases hlt : (n : Rat) / 10 ^ 8 < cfg.min_agent_gas_balance <;>
    simp [ensure_agent_has_gas, get_gas_balance, h, hlt]

/-- Witness for C8: a queried raw balance of 50000 (0.0005 GAS) against
a minimum of 0.001 GAS: the iff instance holds (and indeed 0.0005 <
0.001, so this is the swap-triggering side). -/
theorem c8_witness :
    (some 50000 : Option Nat) = some 50000 ∧
    (RelayEvent.swapRequest ∈
        (ensure_agent_has_gas ⟨fun _ _ => none, some 50000, true, none⟩
          ⟨"", "", "", "", 1/1000, 50⟩).1 ↔
      (50000 : Rat) / 10 ^ 8 < (1 : Rat) / 1000) :=
  ⟨rfl,
   c8_swap_iff_below_min ⟨fun _ _ => none, some 50000, true, none⟩
     ⟨"", "", "", "", 1/1000, 50⟩ 50000 rfl⟩

/-- C2, amended: `execute_gasless_transfer` keeps no record of executed
intent ids — the tool object's state is unchanged by a call — so a
second call with the same intent_id (indeed, the same arguments) is
processed identically to the first rather than being rejected by an
idempotency check. -/
theorem c2_no_dedup_state (st : GaslessRelayTool) (env : RelayEnv)
    (a : TransferArgs) :
    (execute_gasless_transfer st env a).state = st ∧
    execute_gasless_transfer (execute_gasless_transfer st env a).state
        env a =
      execute_gasless_transfer st env a :=
  ⟨rfl, rfl⟩

/-- Inversion for `build_relay_script`: a successful build determines the
four parsed hashes and the exact instruction list. -/
theorem build_relay_script_inv (f t a : String) (n b : Int) (i r : String)
    (L : List Instr)
    (h : build_relay_script f t a n b i r = some L) :
    ∃ vf vt va vr,
      parseUInt160 f = some vf ∧ parseUInt160 t = some vt ∧
      parseUInt160 a = some va ∧ parseUInt160 r = some vr ∧
      L = [Instr.pushBytes i, Instr.pushInt b, Instr.pushInt n,
           Instr.pushU160 va, Instr.pushU160 vt, Instr.pushU160 vf,
           Instr.pushInt 0, Instr.pushInt 7, Instr.pack,
           Instr.pushBytes "transferWithFeeFromAmount", Instr.pushU160 vr,
           Instr.syscall "System.Contract.Call"] := by
  unfold build_relay_script at h
  split at h
  · next vf vt va vr hf ht ha hr =>
      injection h with h
      exact ⟨vf, vt, va, vr, hf, ht, ha, hr, h.symm⟩
  · exact absurd h (by simp)

/-- C5, amended: the relay script pushes the six method arguments in the
order intentId, burnAmount, netAmount, assetHash, toAddr, fromAddr, then
a call-flags value, then an argument count of SEVEN — one more than the
six arguments pushed, so the PACK that follows packs the call-flags
value together with the six method arguments — then the method name
"transferWithFeeFromAmount", the relay contract hash, and the
System.Contract.Call system invocation. -/
theorem c5_relay_script_layout (from_addr to_addr asset_hash : String)
    (net_amount burn_amount : Int) (intent_id relay_contract_hash : String)
    (vf vt va vr : Nat)
    (hf : parseUInt160 from_addr = some vf)
    (ht : parseUInt160 to_addr = some vt)
    (ha : parseUInt160 asset_hash = some va)
    (hr : parseUInt160 relay_contract_hash = some vr) :
    build_relay_script from_addr to_addr asset_hash net_amount
        burn_amount intent_id relay_contract_hash =
      some [Instr.pushBytes intent_id, Instr.pushInt burn_amount,
            Instr.pushInt net_amount, Instr.pushU160 va,
            Instr.pushU160 vt, Instr.pushU160 vf, Instr.pushInt 0,
            Instr.pushInt 7, Instr.pack,
            Instr.pushBytes "transferWithFeeFromAmount",
            Instr.pushU160 vr, Instr.syscall "System.Contract.Call"] := by
  simp [build_relay_script, hf, ht, ha, hr]

/-- Witness for C5: concrete hashes with parsed values 1, 2, 3, 4. -/
theorem c5_witness :
    parseUInt160 "0x0000000000000000000000000000000000000001" = some 1 ∧
    build_relay_script "0x0000000000000000000000000000000000000001"
        "0x0000000000000000000000000000000000000002"
        "0x0000000000000000000000000000000000000003" 90 10 "uuid-c5"
        "0x0000000000000000000000000000000000000004" =
      some [Instr.pushBytes "uuid-c5", Instr.pushInt 10, Instr.pushInt 90,
            Instr.pushU160 3, Instr.pushU160 2, Instr.pushU160 1,
            Instr.pushInt 0, Instr.pushInt 7, Instr.pack,
            Instr.pushBytes "transferWithFeeFromAmount", Instr.pushU160 4,
            Instr.syscall "System.Contract.Call"] :=
  ⟨by decide,
   c5_relay_script_layout "0x0000000000000000000000000000000000000001"
     "0x0000000000000000000000000000000000000002"
     "0x0000000000000000000000000000000000000003" 90 10 "uuid-c5"
     "0x0000000000000000000000000000000000000004" 1 2 3 4 (by decide)
     (by decide) (by decide) (by decide)⟩

/-- Counterexample for C5: at a concrete input the script pushes an
argument count of 7 (the source's literal), not an argument count equal
to the six arguments pushed; the output differs from the list the claim
describes exactly at the count push. -/
theorem c5_counterexample :
    build_relay_script "0x0000000000000000000000000000000000000001"
        "0x0000000000000000000000000000000000000002"
        "0x0000000000000000000000000000000000000003" 90 10 "uuid-cx5"
        "0x0000000000000000000000000000000000000004" =
      some [Instr.pushBytes "uuid-cx5", Instr.pushInt 10, Instr.pushInt 90,
            Instr.pushU160 3, Instr.pushU160 2, Instr.pushU160 1,
            Instr.pushInt 0, Instr.pushInt 7, Instr.pack,
            Instr.pushBytes "transferWithFeeFromAmount", Instr.pushU160 4,
            Instr.syscall "System.Contract.Call"] ∧
    decide (build_relay_script "0x0000000000000000000000000000000000000001"
        "0x0000000000000000000000000000000000000002"
        "0x0000000000000000000000000000000000000003" 90 10 "uuid-cx5"
        "0x0000000000000000000000000000000000000004" =
      some [Instr.pushBytes "uuid-cx5", Instr.pushInt 10, Instr.pushInt 90,
            Instr.pushU160 3, Instr.pushU160 2, Instr.pushU160 1,
            Instr.pushInt 0, Instr.pushInt 6, Instr.pack,
            Instr.pushBytes "transferWithFeeFromAmount", Instr.pushU160 4,
            Instr.syscall "System.Contract.Call"]) = false := by
  decide

/-- C6, amended: the relay script is a pure (hence deterministic)
function of its arguments, and two successful builds yield the same
output only if the integer and string arguments agree and the four
hash-string arguments parse to the same 160-bit values. (Changing a
single argument to a different spelling of the same hash — for example a
hex-case variant, since UInt160.from_string parses case-insensitively
with an optional 0x prefix — does NOT change the output; see the
counterexample.) -/
theorem c6_output_determines_parsed_arguments
    (f1 t1 a1 : String) (n1 b1 : Int) (i1 r1 : String)
    (f2 t2 a2 : String) (n2 b2 : Int) (i2 r2 : String) (L : List Instr)
    (h1 : build_relay_script f1 t1 a1 n1 b1 i1 r1 = some L)
    (h2 : build_relay_script f2 t2 a2 n2 b2 i2 r2 = some L) :
    n1 = n2 ∧ b1 = b2 ∧ i1 = i2 ∧
    parseUInt160 f1 = parseUInt160 f2 ∧
    parseUInt160 t1 = parseUInt160 t2 ∧
    parseUInt160 a1 = parseUInt160 a2 ∧
    parseUInt160 r1 = parseUInt160 r2 := by
  obtain ⟨vf1, vt1, va1, vr1, hf1, ht1, ha1, hr1, hL1⟩ :=
    build_relay_script_inv _ _ _ _ _ _ _ _ h1
  obtain ⟨vf2, vt2, va2, vr2, hf2, ht2, ha2, hr2, hL2⟩ :=
    build_relay_script_inv _ _ _ _ _ _ _ _ h2
  rw [hL1] at hL2
  simp only [List.cons.injEq, Instr.pushBytes.injEq, Instr.pushInt.injEq,
    Instr.pushU160.injEq, Instr.syscall.injEq] at hL2
  obtain ⟨hi, hb, hn, ha, ht, hf, -, -, -, -, hr, -, -⟩ := hL2
  refine ⟨hn, hb, hi, ?_, ?_, ?_, ?_⟩ <;>
    simp [hf1, hf2, ht1, ht2, ha1, ha2, hr1, hr2, hf, ht, ha, hr]

/-- Counterexample for C6: two calls that differ in a single argument —
the from-address spelled with lowercase aa versus uppercase AA — produce
identical outputs, because UInt160.from_string is case-insensitive. -/
theorem c6_counterexample :
    build_relay_script "0x00000000000000000000000000000000000000aa"
        "0x0000000000000000000000000000000000000002"
        "0x0000000000000000000000000000000000000003" 90 10 "uuid-cx6"
        "0x0000000000000000000000000000000000000004" =
      build_relay_script "0x00000000000000000000000000000000000000AA"
        "0x0000000000000000000000000000000000000002"
        "0x0000000000000000000000000000000000000003" 90 10 "uuid-cx6"
        "0x0000000000000000000000000000000000000004" ∧
    decide (("0x00000000000000000000000000000000000000aa" : String) =
        "0x00000000000000000000000000000000000000AA") = false := by
  decide

/-- Witness for C6: two successful concrete builds with equal output;
the theorem yields agreement of the parsed hash values. -/
theorem c6_witness :
    build_relay_script "0x00000000000000000000000000000000000000aa"
        "0x0000000000000000000000000000000000000002"
        "0x0000000000000000000000000000000000000003" 90 10 "uuid-c6"
        "0x0000000000000000000000000000000000000004" =
      some [Instr.pushBytes "uuid-c6", Instr.pushInt 10, Instr.pushInt 90,
            Instr.pushU160 3, Instr.pushU160 2, Instr.pushU160 170,
            Instr.pushInt 0, Instr.pushInt 7, Instr.pack,
            Instr.pushBytes "transferWithFeeFromAmount", Instr.pushU160 4,
            Instr.syscall "System.Contract.Call"] ∧
    ((90 : Int) = 90 ∧ (10 : Int) = 10 ∧ "uuid-c6" = "uuid-c6" ∧
      parseUInt160 "0x00000000000000000000000000000000000000aa" =
        parseUInt160 "0x00000000000000000000000000000000000000AA" ∧
      parseUInt160 "0x0000000000000000000000000000000000000002" =
        parseUInt160 "0x0000000000000000000000000000000000000002" ∧
      parseUInt160 "0x0000000000000000000000000000000000000003" =
        parseUInt160 "0x0000000000000000000000000000000000000003" ∧
      parseUInt160 "0x0000000000000000000000000000000000000004" =
        parseUInt160 "0x0000000000000000000000000000000000000004") :=
  ⟨by decide,
   c6_output_determines_parsed_arguments
     "0x00000000000000000000000000000000000000aa"
     "0x0000000000000000000000000000000000000002"
     "0x0000000000000000000000000000000000000003" 90 10 "uuid-c6"
     "0x0000000000000000000000000000000000000004"
     "0x00000000000000000000000000000000000000AA"
     "0x0000000000000000000000000000000000000002"
     "0x0000000000000000000000000000000000000003" 90 10 "uuid-c6"
     "0x0000000000000000000000000000000000000004"
     [Instr.pushBytes "uuid-c6", Instr.pushInt 10, Instr.pushInt 90,
      Instr.pushU160 3, Instr.pushU160 2, Instr.pushU160 170,
      Instr.pushInt 0, Instr.pushInt 7, Instr.pack,
      Instr.pushBytes "transferWithFeeFromAmount", Instr.pushU160 4,
      Instr.syscall "System.Contract.Call"] (by decide) (by decide)⟩

/-- The gas guard emits only balance-query and swap events, never a
transaction-assembly event. -/
theorem ensure_agent_has_gas_no_assembled (env : RelayEnv)
    (cfg : NeoNetworkConfig) (tx : Transaction) :
    RelayEvent.assembled tx ∉ (ensure_agent_has_gas env cfg).1 := by
  unfold ensure_agent_has_gas
  split <;> simp

/-- The gas guard always emits the balance-query network event. -/
theorem ensure_agent_has_gas_queries (env : RelayEnv)
    (cfg : NeoNetworkConfig) :
    RelayEvent.balanceQuery ∈ (ensure_agent_has_gas env cfg).1 := by
  unfold ensure_agent_has_gas
  split <;> simp

/-- When the swap endpoint is healthy the gas guard returns normally in
both branches (sufficient balance, or top-up swap). -/
theorem ensure_agent_has_gas_ok (env : RelayEnv) (cfg : NeoNetworkConfig)
    (hswap : env.swapOk = true) :
    (ensure_agent_has_gas env cfg).2 = Except.ok () := by
  unfold ensure_agent_has_gas
  split <;> simp [hswap]

/-- C9: every transaction assembled by execute_gasless_transfer — for
any tool state, collaborator behavior and arguments, i.e. for every
request that reaches assembly — carries the constant header fields
nonce 12345, system_fee 120000, network_fee 100000 and
valid_until_block 999999; in particular any two assembled transactions
share the same nonce. -/
theorem c9_constant_transaction_header (st : GaslessRelayTool)
    (env : RelayEnv) (a : TransferArgs) (tx : Transaction)
    (h : RelayEvent.assembled tx ∈ (execute_gasless_transfer st env a).events) :
    tx.nonce = 12345 ∧ tx.system_fee = 120000 ∧
    tx.network_fee = 100000 ∧ tx.valid_until_block = 999999 := by
  unfold execute_gasless_transfer exec_run at h
  cases hrec : env.recoverAddr
      (canonicalIntentPayload a.from_addr a.to_addr a.gross_amount
        a.fee_in_asset a.intent_id) a.user_signature with
  | none => simp [hrec] at h
  | some addr =>
    simp only [hrec] at h
    by_cases haddr : addr = a.from_addr
    · simp only [haddr, if_true, eq_self_iff_true] at h
      cases hegr : (ensure_agent_has_gas env st.config).2 with
      | error e =>
        rw [hegr] at h
        exact absurd h (ensure_agent_has_gas_no_assembled env st.config tx)
      | ok u =>
        rw [hegr] at h
        cases hscr : build_relay_script a.from_addr a.to_addr a.asset_hash
            (a.gross_amount - a.fee_in_asset) a.fee_in_asset a.intent_id
            st.config.relay_contract_hash with
        | none =>
          rw [hscr] at h
          exact absurd h (ensure_agent_has_gas_no_assembled env st.config tx)
        | some s =>
          rw [hscr] at h
          simp only [List.mem_append, List.mem_singleton] at h
          rcases h with h | h
          · exact absurd h (ensure_agent_has_gas_no_assembled env st.config tx)
          · cases h
            exact ⟨rfl, rfl, rfl, rfl⟩
    · simp [haddr] at h

/-- Witness for C9: a concrete accepted request (valid signature oracle,
funded agent) assembles a transaction, and that transaction carries the
four constant header fields. -/
theorem c9_witness :
    RelayEvent.assembled
        ⟨0, 12345, 120000, 100000, 999999, [],
         [Instr.pushBytes "uuid-c9", Instr.pushInt 10, Instr.pushInt 90,
          Instr.pushU160 3, Instr.pushU160 2, Instr.pushU160 1,
          Instr.pushInt 0, Instr.pushInt 7, Instr.pack,
          Instr.pushBytes "transferWithFeeFromAmount", Instr.pushU160 4,
          Instr.syscall "System.Contract.Call"], []⟩ ∈
      (execute_gasless_transfer
        ⟨⟨"", "", "0x0000000000000000000000000000000000000004", "",
          1/1000, 50⟩⟩
        ⟨fun _ _ => some "0x0000000000000000000000000000000000000001",
         some 100000000, true, none⟩
        ⟨"0x0000000000000000000000000000000000000001",
         "0x0000000000000000000000000000000000000002",
         "0x0000000000000000000000000000000000000003", 100, 10, "sig-c9",
         "uuid-c9"⟩).events ∧
    ((⟨0, 12345, 120000, 100000, 999999, [],
       [Instr.pushBytes "uuid-c9", Instr.pushInt 10, Instr.pushInt 90,
        Instr.pushU160 3, Instr.pushU160 2, Instr.pushU160 1,
        Instr.pushInt 0, Instr.pushInt 7, Instr.pack,
        Instr.pushBytes "transferWithFeeFromAmount", Instr.pushU160 4,
        Instr.syscall "System.Contract.Call"], []⟩ : Transaction).nonce =
        12345 ∧
      (⟨0, 12345, 120000, 100000, 999999, [],
        [Instr.pushBytes "uuid-c9", Instr.pushInt 10, Instr.pushInt 90,
         Instr.pushU160 3, Instr.pushU160 2, Instr.pushU160 1,
         Instr.pushInt 0, Instr.pushInt 7, Instr.pack,
         Instr.pushBytes "transferWithFeeFromAmount", Instr.pushU160 4,
         Instr.syscall "System.Contract.Call"], []⟩ : Transaction).system_fee =
        120000 ∧
      (⟨0, 12345, 120000, 100000, 999999, [],
        [Instr.pushBytes "uuid-c9", Instr.pushInt 10, Instr.pushInt 90,
         Instr.pushU160 3, Instr.pushU160 2, Instr.pushU160 1,
         Instr.pushInt 0, Instr.pushInt 7, Instr.pack,
         Instr.pushBytes "transferWithFeeFromAmount", Instr.pushU160 4,
         Instr.syscall "System.Contract.Call"], []⟩ : Transaction).network_fee =
        100000 ∧
      (⟨0, 12345, 120000, 100000, 999999, [],
        [Instr.pushBytes "uuid-c9", Instr.pushInt 10, Instr.pushInt 90,
         Instr.pushU160 3, Instr.pushU160 2, Instr.pushU160 1,
         Instr.pushInt 0, Instr.pushInt 7, Instr.pack,
         Instr.pushBytes "transferWithFeeFromAmount", Instr.pushU160 4,
         Instr.syscall "System.Contract.Call"], []⟩ : Transaction).valid_until_block =
        999999) :=
  ⟨by decide,
   c9_constant_transaction_header
     ⟨⟨"", "", "0x0000000000000000000000000000000000000004", "",
       1/1000, 50⟩⟩
     ⟨fun _ _ => some "0x0000000000000000000000000000000000000001",
      some 100000000, true, none⟩
     ⟨"0x0000000000000000000000000000000000000001",
      "0x0000000000000000000000000000000000000002",
      "0x0000000000000000000000000000000000000003", 100, 10, "sig-c9",
      "uuid-c9"⟩
     ⟨0, 12345, 120000, 100000, 999999, [],
      [Instr.pushBytes "uuid-c9", Instr.pushInt 10, Instr.pushInt 90,
       Instr.pushU160 3, Instr.pushU160 2, Instr.pushU160 1,
       Instr.pushInt 0, Instr.pushInt 7, Instr.pack,
       Instr.pushBytes "transferWithFeeFromAmount", Instr.pushU160 4,
       Instr.syscall "System.Contract.Call"], []⟩ (by decide)⟩

/-- C1, amended: a request with fee_in_asset ≥ gross_amount is NOT
rejected: provided the signature oracle accepts, execution proceeds past
verification — it performs the balance-query network call, builds the
relay script with the (negative) net amount gross_amount - fee_in_asset
baked in, and assembles the transaction — and then fails with the
unrelated NameError from witness construction; no NegativeNetAmount
check exists anywhere on the path. -/
theorem c1_negative_net_not_rejected (st : GaslessRelayTool)
    (env : RelayEnv) (a : TransferArgs) (s : List Instr)
    (_hfee : a.gross_amount ≤ a.fee_in_asset)
    (hrec : env.recoverAddr
      (canonicalIntentPayload a.from_addr a.to_addr a.gross_amount
        a.fee_in_asset a.intent_id) a.user_signature = some a.from_addr)
    (hswap : env.swapOk = true)
    (hscript : build_relay_script a.from_addr a.to_addr a.asset_hash
      (a.gross_amount - a.fee_in_asset) a.fee_in_asset a.intent_id
      st.config.relay_contract_hash = some s) :
    RelayEvent.balanceQuery ∈ (execute_gasless_transfer st env a).events ∧
    RelayEvent.assembled
        ⟨0, 12345, 120000, 100000, 999999, [], s, []⟩ ∈
      (execute_gasless_transfer st env a).events ∧
    (execute_gasless_transfer st env a).result =
      Except.error PyError.nameError := by
  unfold execute_gasless_transfer exec_run
  simp only [hrec]
  rw [if_true]
  rw [ensure_agent_has_gas_ok env st.config hswap]
  simp only [hscript]
  exact ⟨List.mem_append.mpr
      (Or.inl (ensure_agent_has_gas_queries env st.config)),
    List.mem_append.mpr (Or.inr (by simp)), trivial⟩

/-- Witness for C1: a concrete request with gross 100 and fee 150 (so
net -50): the balance query happens, the transaction is assembled with
the negative net amount in its script, and the call ends in NameError,
not in any NegativeNetAmount rejection. -/
theorem c1_witness :
    (100 : Int) ≤ 150 ∧
    (RelayEvent.balanceQuery ∈
        (execute_gasless_transfer
          ⟨⟨"", "", "0x0000000000000000000000000000000000000004", "",
            1/1000, 50⟩⟩
          ⟨fun _ _ => some "0x0000000000000000000000000000000000000001",
           some 100000000, true, none⟩
          ⟨"0x0000000000000000000000000000000000000001",
           "0x0000000000000000000000000000000000000002",
           "0x0000000000000000000000000000000000000003", 100, 150,
           "sig-c1", "uuid-c1"⟩).events ∧
      RelayEvent.assembled
          ⟨0, 12345, 120000, 100000, 999999, [],
           [Instr.pushBytes "uuid-c1", Instr.pushInt 150,
            Instr.pushInt (-50), Instr.pushU160 3, Instr.pushU160 2,
            Instr.pushU160 1, Instr.pushInt 0, Instr.pushInt 7, Instr.pack,
            Instr.pushBytes "transferWithFeeFromAmount", Instr.pushU160 4,
            Instr.syscall "System.Contract.Call"], []⟩ ∈
        (execute_gasless_transfer
          ⟨⟨"", "", "0x0000000000000000000000000000000000000004", "",
            1/1000, 50⟩⟩
          ⟨fun _ _ => some "0x0000000000000000000000000000000000000001",
           some 100000000, true, none⟩
          ⟨"0x0000000000000000000000000000000000000001",
           "0x0000000000000000000000000000000000000002",
           "0x0000000000000000000000000000000000000003", 100, 150,
           "sig-c1", "uuid-c1"⟩).events ∧
      (execute_gasless_transfer
          ⟨⟨"", "", "0x0000000000000000000000000000000000000004", "",
            1/1000, 50⟩⟩
          ⟨fun _ _ => some "0x0000000000000000000000000000000000000001",
           some 100000000, true, none⟩
          ⟨"0x0000000000000000000000000000000000000001",
           "0x0000000000000000000000000000000000000002",
           "0x0000000000000000000000000000000000000003", 100, 150,
           "sig-c1", "uuid-c1"⟩).result =
        Except.error PyError.nameError) :=
  ⟨by decide,
   c1_negative_net_not_rejected
     ⟨⟨"", "", "0x0000000000000000000000000000000000000004", "",
       1/1000, 50⟩⟩
     ⟨fun _ _ => some "0x0000000000000000000000000000000000000001",
      some 100000000, true, none⟩
     ⟨"0x0000000000000000000000000000000000000001",
      "0x0000000000000000000000000000000000000002",
      "0x0000000000000000000000000000000000000003", 100, 150, "sig-c1",
      "uuid-c1"⟩
     [Instr.pushBytes "uuid-c1", Instr.pushInt 150, Instr.pushInt (-50),
      Instr.pushU160 3, Instr.pushU160 2, Instr.pushU160 1,
      Instr.pushInt 0, Instr.pushInt 7, Instr.pack,
      Instr.pushBytes "transferWithFeeFromAmount", Instr.pushU160 4,
      Instr.syscall "System.Contract.Call"] (by decide) rfl rfl
     (by decide)⟩

/-- Counterexample for C1: a concrete request with fee_in_asset 150 ≥
gross_amount 100 is not rejected with any NegativeNetAmount error before
script build: the trace shows the balance-query network call and a
transaction-assembly event, and the eventual failure is the unrelated
NameError from witness construction. -/
theorem c1_counterexample :
    (100 : Int) ≤ 150 ∧
    RelayEvent.balanceQuery ∈
      (execute_gasless_transfer
        ⟨⟨"", "", "0x0000000000000000000000000000000000000004", "",
          1/1000, 50⟩⟩
        ⟨fun _ _ => some "0x0000000000000000000000000000000000000001",
         some 100000000, true, none⟩
        ⟨"0x0000000000000000000000000000000000000001",
         "0x0000000000000000000000000000000000000002",
         "0x0000000000000000000000000000000000000003", 100, 150,
         "sig-cx1", "uuid-cx1"⟩).events ∧
    hasAssembled
      (execute_gasless_transfer
        ⟨⟨"", "", "0x0000000000000000000000000000000000000004", "",
          1/1000, 50⟩⟩
        ⟨fun _ _ => some "0x0000000000000000000000000000000000000001",
         some 100000000, true, none⟩
        ⟨"0x0000000000000000000000000000000000000001",
         "0x0000000000000000000000000000000000000002",
         "0x0000000000000000000000000000000000000003", 100, 150,
         "sig-cx1", "uuid-cx1"⟩).events = true ∧
    (execute_gasless_transfer
        ⟨⟨"", "", "0x0000000000000000000000000000000000000004", "",
          1/1000, 50⟩⟩
        ⟨fun _ _ => some "0x0000000000000000000000000000000000000001",
         some 100000000, true, none⟩
        ⟨"0x0000000000000000000000000000000000000001",
         "0x0000000000000000000000000000000000000002",
         "0x0000000000000000000000000000000000000003", 100, 150,
         "sig-cx1", "uuid-cx1"⟩).result =
      Except.error PyError.nameError := by
  decide

/-- Counterexample for C2: a second call with the same intent_id
(uuid-c2), issued on the tool state left by the first call, is not
rejected by any idempotency check: it re-executes the pipeline — the
balance-query network call and the transaction assembly happen again —
and its whole outcome equals the first call's outcome. -/
theorem c2_counterexample :
    RelayEvent.balanceQuery ∈
      (execute_gasless_transfer
        (execute_gasless_transfer
          ⟨⟨"", "", "0x0000000000000000000000000000000000000004", "",
            1/1000, 50⟩⟩
          ⟨fun _ _ => some "0x0000000000000000000000000000000000000001",
           some 100000000, true, none⟩
          ⟨"0x0000000000000000000000000000000000000001",
           "0x0000000000000000000000000000000000000002",
           "0x0000000000000000000000000000000000000003", 100, 10,
           "sig-c2", "uuid-c2"⟩).state
        ⟨fun _ _ => some "0x0000000000000000000000000000000000000001",
         some 100000000, true, none⟩
        ⟨"0x0000000000000000000000000000000000000001",
         "0x0000000000000000000000000000000000000002",
         "0x0000000000000000000000000000000000000003", 100, 10, "sig-c2",
         "uuid-c2"⟩).events ∧
    hasAssembled
      (execute_gasless_transfer
        (execute_gasless_transfer
          ⟨⟨"", "", "0x0000000000000000000000000000000000000004", "",
            1/1000, 50⟩⟩
          ⟨fun _ _ => some "0x0000000000000000000000000000000000000001",
           some 100000000, true, none⟩
          ⟨"0x0000000000000000000000000000000000000001",
           "0x0000000000000000000000000000000000000002",
           "0x0000000000000000000000000000000000000003", 100, 10,
           "sig-c2", "uuid-c2"⟩).state
        ⟨fun _ _ => some "0x0000000000000000000000000000000000000001",
         some 100000000, true, none⟩
        ⟨"0x0000000000000000000000000000000000000001",
         "0x0000000000000000000000000000000000000002",
         "0x0000000000000000000000000000000000000003", 100, 10, "sig-c2",
         "uuid-c2"⟩).events = true ∧
    execute_gasless_transfer
        (execute_gasless_transfer
          ⟨⟨"", "", "0x0000000000000000000000000000000000000004", "",
            1/1000, 50⟩⟩
          ⟨fun _ _ => some "0x0000000000000000000000000000000000000001",
           some 100000000, true, none⟩
          ⟨"0x0000000000000000000000000000000000000001",
           "0x0000000000000000000000000000000000000002",
           "0x0000000000000000000000000000000000000003", 100, 10,
           "sig-c2", "uuid-c2"⟩).state
        ⟨fun _ _ => some "0x0000000000000000000000000000000000000001",
         some 100000000, true, none⟩
        ⟨"0x0000000000000000000000000000000000000001",
         "0x0000000000000000000000000000000000000002",
         "0x0000000000000000000000000000000000000003", 100, 10, "sig-c2",
         "uuid-c2"⟩ =
      execute_gasless_transfer
        ⟨⟨"", "", "0x0000000000000000000000000000000000000004", "",
          1/1000, 50⟩⟩
        ⟨fun _ _ => some "0x0000000000000000000000000000000000000001",
         some 100000000, true, none⟩
        ⟨"0x0000000000000000000000000000000000000001",
         "0x0000000000000000000000000000000000000002",
         "0x0000000000000000000000000000000000000003", 100, 10, "sig-c2",
         "uuid-c2"⟩ := by
  refine ⟨by decide, by decide, rfl⟩
